import Mathlib

/-!
Verification of the conformance-harness portion of the PortsmouthRaceCalc
repository (`src/__main__.py`): the five per-skipper check functions,
`check_series_with_file`, and `main_check`.

Python `Decimal` values are modelled as exact rationals (`ℚ`); `round(d, 1)`
(banker's rounding to one decimal place, `ROUND_HALF_EVEN`) is modelled by
`round1`.  Scoring-kernel accessors (`skipper_points_list`,
`get_skipper_race_points`, `rc_skippers`, `get_skipper_rc_points`,
`get_all_skippers`) are data of the `Series`/`Race` structures, since the
harness only queries them.  Skippers are identified by their identifier
string.  The `decimal.InvalidOperation` exception that `Decimal(...)` raises
on a non-numeric string is modelled with `Except`.
-/

namespace PortsmouthRace

/-- Round a rational to the nearest integer, ties to even: the rounding used
by Python's `round(Decimal, 1)` (context rounding `ROUND_HALF_EVEN`). -/
def rndHE (x : ℚ) : Int :=
  if x - (⌊x⌋ : ℚ) < 1 / 2 then ⌊x⌋
  else if 1 / 2 < x - (⌊x⌋ : ℚ) then ⌊x⌋ + 1
  else if ⌊x⌋ % 2 = 0 then ⌊x⌋ else ⌊x⌋ + 1

/-- Models Python `round(Decimal(q), 1)`: round to one decimal
place, half to even. -/
def round1 (q : ℚ) : ℚ := ((rndHE (q * 10) : ℚ)) / 10

/-- A scalar loaded from the reference dump by `yaml.safe_load`: either a
number (int/float, modelled exactly) or a string. -/
inductive YVal
  | num (q : ℚ)
  | str (s : String)
deriving DecidableEq, Repr

/-- Models Python `isinstance(v, str)`. -/
def YVal.isStr : YVal → Bool
  | .num _ => false
  | .str _ => true

/-- Models `Decimal(p)` for a value `p` that is known not to be a string
(the harness checks this before converting); the string branch is
unreachable at every call site. -/
def YVal.toNumD : YVal → ℚ
  | .num q => q
  | .str _ => 0

/-- A Python value appearing in a mismatch record of the harness. -/
inductive Val
  | int (n : Int)
  | num (q : ℚ)
  | str (s : String)
  | numList (l : List ℚ)
  | rawList (l : List YVal)
  | none_
deriving DecidableEq, Repr

/-- Inject a loaded YAML scalar into the mismatch-value universe. -/
def YVal.toVal : YVal → Val
  | .num q => Val.num q
  | .str s => Val.str s

/-- A mismatch record: field name, kernel (Python) value, reference (Perl)
value. -/
abbrev Mismatch := String × Val × Val

/-- Value of a digit string (used by the `Decimal` string-conversion
model). -/
def natOfDigits (cs : List Char) : Nat :=
  cs.foldl (fun a c => a * 10 + (c.toNat - 48)) 0

/-- Models Python `str.strip()`: remove leading and trailing whitespace. -/
def pyStrip (s : String) : String :=
  String.mk (((s.data.dropWhile Char.isWhitespace).reverse.dropWhile
    Char.isWhitespace).reverse)

/-- Unsigned part of the plain-decimal subset of Python's `Decimal` string
grammar: digits with an optional fractional part (no exponent, no
specials); `none` models `decimal.InvalidOperation`. -/
def decParseUnsigned : List Char → Option ℚ
  | cs =>
    let intPart := cs.takeWhile Char.isDigit
    match cs.dropWhile Char.isDigit with
    | [] => if intPart.isEmpty then none else some ((natOfDigits intPart : ℚ))
    | '.' :: frac =>
      if frac.all Char.isDigit && !(intPart.isEmpty && frac.isEmpty) then
        some ((natOfDigits intPart : ℚ) + (natOfDigits frac : ℚ) / (10 ^ frac.length))
      else none
    | _ => none

/-- Models `Decimal(s)` for a string `s` (plain-decimal subset, which covers
the reference dump's numeric strings); `none` models the
`decimal.InvalidOperation` exception. -/
def decParse (s : String) : Option ℚ :=
  match (pyStrip s).data with
  | '+' :: rest => decParseUnsigned rest
  | '-' :: rest => (decParseUnsigned rest).map Neg.neg
  | rest => decParseUnsigned rest

/-- Models `Decimal(v)` on a loaded YAML scalar. -/
def decimalOf : YVal → Option ℚ
  | .num q => some q
  | .str s => decParse s

/-- One race, as the harness sees it: the mapping returned by
`get_skipper_race_points()` (skipper identifier → points) and the set
returned by `rc_skippers()`. -/
structure Race where
  points : List (String × ℚ)
  rc : List String
deriving Repr

/-- Default race used with `List.getD` when stating indexed properties. -/
def dRace : Race := ⟨[], []⟩

/-- One series, as the harness sees it: name, ordered races, and the
kernel accessors the checks query.  `skipper_points_list` is `none` for the
falsy DNQ/"na" sentinel and otherwise carries the `points_scored` list. -/
structure Series where
  name : String
  races : List Race
  skipper_points_list : String → Option (List ℚ)
  get_skipper_rc_points : String → Option ℚ
  all_skippers : List String

/-- The reference record for one skipper in the dump (`dumper.yaml`),
already extracted from `perl_output["skip"][identifier]`. -/
structure PerlSkipperResult where
  finished_races : Int
  low_n_list : List YVal
  race : List (Nat × YVal)
  rced_races : Int
  rc_points : YVal
deriving Repr

/-- The function `check_finished_race_count` from `check_series_with_file`. -/
def check_finished_race_count (s : Series) (skip : String)
    (perl : PerlSkipperResult) : Option Mismatch :=
  let finished_race_count : Int :=
    ((s.races.filter (fun r => (r.points.lookup skip).isSome)).length : Int)
  if finished_race_count ≠ perl.finished_races then
    some ("Count", Val.int finished_race_count, Val.int perl.finished_races)
  else none

/-- First position (and pair) where two equal-length prefixes differ:
models `for i, (a, b) in enumerate(zip(xs, ys)): if a != b: return i, a, b`. -/
def firstDiffAux : Nat → List ℚ → List ℚ → Option (Nat × ℚ × ℚ)
  | _, [], _ => none
  | _, _ :: _, [] => none
  | i, a :: as, b :: bs =>
    if a ≠ b then some (i, a, b) else firstDiffAux (i + 1) as bs

/-- Models Python `sorted` on a list of rationals (ascending; for rationals
the output is uniquely determined by the multiset, so stability is moot). -/
def pySorted (l : List ℚ) : List ℚ := l.insertionSort (· ≤ ·)

/-- The truthy branch of `check_series_points` ("the skipper finished the
series"): string scan, one-decimal conversion, length check, sorted
element-wise comparison, then the sum check. -/
def check_series_points_scored (series_points : List ℚ)
    (series_points_perl : List YVal) : Option Mismatch :=
  if series_points_perl.any YVal.isStr then
    some ("Number/String", Val.numList series_points,
      Val.rawList series_points_perl)
  else
    let sppD := series_points_perl.map (fun p => round1 p.toNumD)
    if series_points.length ≠ sppD.length then
      some ("Point Count", Val.int (series_points.length : Int),
        Val.int (sppD.length : Int))
    else
      match firstDiffAux 0 (pySorted series_points) (pySorted sppD) with
      | some (i, a, b) =>
        some ("Point[" ++ toString i ++ "]", Val.num a, Val.num b)
      | none =>
        if series_points.sum ≠ sppD.sum then
          some ("Sum Count", Val.int (series_points.length : Int),
            Val.int (sppD.length : Int))
        else none

/-- The falsy branch of `check_series_points` (DNQ/"na" sentinel): the
reference list must be exactly `["na"]` or `["DNQ"]`. -/
def check_series_points_sentinel (series_points_perl : List YVal) :
    Option Mismatch :=
  if series_points_perl.length ≠ 1 then
    some ("Array Length", Val.int 1, Val.rawList series_points_perl)
  else
    let v := series_points_perl.getD 0 (YVal.str "")
    if v = YVal.str "na" ∨ v = YVal.str "DNQ" then none
    else some ("Point String", Val.str "na/DNQ", v.toVal)

/-- The function `check_series_points` from `check_series_with_file`. -/
def check_series_points (s : Series) (skip : String)
    (perl : PerlSkipperResult) : Option Mismatch :=
  match s.skipper_points_list skip with
  | some series_points => check_series_points_scored series_points perl.low_n_list
  | none => check_series_points_sentinel perl.low_n_list

/-- The kernel-side per-race value formatted by `check_race_results`:
points if the skipper is in the race's points mapping, else the "RC"
marker if on RC duty, else `None`. -/
def raceKernelVal (skip : String) (r : Race) : Val :=
  match r.points.lookup skip with
  | some q => Val.num q
  | none => if skip ∈ r.rc then Val.str "RC" else Val.none_

/-- The reference-side per-race value: the dump's `race` mapping at the
(1-based) key `k`, or `None` when the key is absent. -/
def racePerlVal (perl : PerlSkipperResult) (k : Nat) : Val :=
  match perl.race.lookup k with
  | some v => v.toVal
  | none => Val.none_

/-- The loop body of `check_race_results` over `enumerate(series.races)`,
carried out from 0-based position `i`. -/
def check_race_results_go (skip : String) (perl : PerlSkipperResult) :
    Nat → List Race → Option Mismatch
  | _, [] => none
  | i, r :: rs =>
    let pts := raceKernelVal skip r
    let pts_perl := racePerlVal perl (i + 1)
    if pts = Val.none_ ∧ pts_perl = Val.none_ then
      check_race_results_go skip perl (i + 1) rs
    else if pts ≠ pts_perl then
      some ("Race[" ++ toString (i + 1) ++ "]", pts, pts_perl)
    else
      check_race_results_go skip perl (i + 1) rs

/-- The function `check_race_results` from `check_series_with_file`. -/
def check_race_results (s : Series) (skip : String)
    (perl : PerlSkipperResult) : Option Mismatch :=
  check_race_results_go skip perl 0 s.races

/-- The function `check_rc_race_count` from `check_series_with_file`. -/
def check_rc_race_count (s : Series) (skip : String)
    (perl : PerlSkipperResult) : Option Mismatch :=
  let rc_count : Int := ((s.races.filter (fun r => r.rc.contains skip)).length : Int)
  let rc_count_perl := perl.rced_races
  if rc_count ≠ rc_count_perl then
    some ("RC Count", Val.int rc_count, Val.int rc_count_perl)
  else none

/-- The exception a check can raise: `decimal.InvalidOperation` from
`Decimal(...)` on a non-numeric string. -/
inductive Exn
  | invalidOperation
deriving DecidableEq, Repr

/-- The function `check_rc_points` from `check_series_with_file`.  When the kernel
reports an RC-points value, the reference value goes through
`round(Decimal(rc_pts_perl), 1)`, which raises on a non-numeric string. -/
def check_rc_points (s : Series) (skip : String)
    (perl : PerlSkipperResult) : Except Exn (Option Mismatch) :=
  match s.get_skipper_rc_points skip with
  | none =>
    if perl.rc_points ≠ YVal.str "na" then
      Except.ok (some ("RC Points", Val.str "na", perl.rc_points.toVal))
    else Except.ok none
  | some rc_pts =>
    match decimalOf perl.rc_points with
    | none => Except.error Exn.invalidOperation
    | some q =>
      let rc_pts_perl := round1 q
      if rc_pts ≠ rc_pts_perl then
        Except.ok (some ("RC Points", Val.num rc_pts, Val.num rc_pts_perl))
      else Except.ok none

/-- The common type of the five per-skipper checks (a check either raises
or returns an optional mismatch record). -/
abbrev ChkFun := Series → String → PerlSkipperResult → Except Exn (Option Mismatch)

/-- The `check_functions` list, in source order. -/
def check_functions : List ChkFun :=
  [fun s k p => Except.ok (check_finished_race_count s k p),
   fun s k p => Except.ok (check_series_points s k p),
   fun s k p => Except.ok (check_race_results s k p),
   fun s k p => Except.ok (check_rc_race_count s k p),
   check_rc_points]

/-- The inner loop of `check_series_with_file`: run the checks in order,
`break` at the first one reporting a mismatch (exceptions propagate). -/
def runChecks : List ChkFun → Series → String → PerlSkipperResult →
    Except Exn (Option Mismatch)
  | [], _, _, _ => Except.ok none
  | f :: fs, s, k, p =>
    match f s k p with
    | Except.error e => Except.error e
    | Except.ok (some r) => Except.ok (some r)
    | Except.ok none => runChecks fs s k p

/-- Render an integer as `str` would. -/
def intRender (n : Int) : String := toString n

/-- Render a rational; stands for Python `str(Decimal(...))` (the exact
digit formatting is irrelevant to every property below). -/
def qRender (q : ℚ) : String := toString q.num ++ "/" ++ toString q.den

/-- Comma-join, as in a Python list repr. -/
def joinComma : List String → String
  | [] => ""
  | [x] => x
  | x :: xs => x ++ ", " ++ joinComma xs

/-- Render one raw YAML scalar. -/
def YVal.render : YVal → String
  | .num q => qRender q
  | .str s => s

/-- Render a mismatch value; stands for Python's f-string formatting of the
value. -/
def Val.render : Val → String
  | .int n => intRender n
  | .num q => qRender q
  | .str s => s
  | .numList l => "[" ++ joinComma (l.map qRender) ++ "]"
  | .rawList l => "[" ++ joinComma (l.map YVal.render) ++ "]"
  | .none_ => "None"

/-- The error line appended by `check_series_with_file` for one skipper. -/
def formatError (skipId : String) (m : Mismatch) : String :=
  "Skipper " ++ skipId ++ " Parameter `" ++ m.1 ++ "` Python=`" ++
    m.2.1.render ++ "` != Perl=`" ++ m.2.2.render ++ "`"

/-- The skipper loop of `check_series_with_file`, building `error_outputs`
(an exception anywhere aborts the whole call, as in Python). -/
def collectErrors : List String → Series → (String → PerlSkipperResult) →
    Except Exn (List String)
  | [], _, _ => Except.ok []
  | k :: ks, s, po =>
    match runChecks check_functions s k (po k) with
    | Except.error e => Except.error e
    | Except.ok none => collectErrors ks s po
    | Except.ok (some m) =>
      (collectErrors ks s po).map (fun rest => formatError k m :: rest)

/-- The function `check_series_with_file`: returns the success flag together with the
lines it prints to stdout (the `Series {name}` header and the indented
error lines, printed only when a mismatch exists). -/
def check_series_with_file (s : Series) (po : String → PerlSkipperResult) :
    Except Exn (Bool × List String) :=
  match collectErrors s.all_skippers s po with
  | Except.error e => Except.error e
  | Except.ok [] => Except.ok (true, [])
  | Except.ok errs =>
    Except.ok (false, ("Series " ++ s.name) :: errs.map (fun l => "  " ++ l))

/-- The outcome of the per-series legacy reference subprocess: a non-zero
exit with captured stderr, or a successfully loaded `dumper.yaml`. -/
inductive RefOutcome
  | procError (stderr : List String)
  | output (dump : String → PerlSkipperResult)

/-- Observable result of `main_check`: process exit status and the lines
written to stdout and stderr. -/
structure RunResult where
  exitCode : Nat
  stdout : List String
  stderr : List String
deriving DecidableEq, Repr

/-- Whether one series passes: its reference subprocess succeeded and
`check_series_with_file` returned true. -/
def seriesPasses (p : Series × RefOutcome) : Bool :=
  match p.2 with
  | RefOutcome.procError _ => false
  | RefOutcome.output d =>
    match check_series_with_file p.1 d with
    | Except.ok (b, _) => b
    | Except.error _ => false

/-- The stdout lines one series contributes inside the `main_check` loop. -/
def seriesStdoutLines (p : Series × RefOutcome) : List String :=
  match p.2 with
  | RefOutcome.procError _ => []
  | RefOutcome.output d =>
    match check_series_with_file p.1 d with
    | Except.ok (_, lines) => lines
    | Except.error _ => []

/-- The stderr lines one series contributes inside the `main_check` loop. -/
def seriesStderrLines (p : Series × RefOutcome) : List String :=
  match p.2 with
  | RefOutcome.procError es =>
    (p.1.name ++ " Process Error!") :: es.map (fun l => "    " ++ pyStrip l)
  | RefOutcome.output d =>
    match check_series_with_file p.1 d with
    | Except.ok (true, _) => []
    | Except.ok (false, _) => [p.1.name ++ " Check Error :-("]
    | Except.error _ => []

/-- The series loop of `main_check`, threading `overall_success` and the
two output streams. -/
def main_check_loop : List (Series × RefOutcome) → Bool → List String →
    List String → Except Exn (Bool × List String × List String)
  | [], ok, out, err => Except.ok (ok, out, err)
  | (s, o) :: rest, ok, out, err =>
    match o with
    | RefOutcome.procError es =>
      main_check_loop rest false out
        (err ++ (s.name ++ " Process Error!") :: es.map (fun l => "    " ++ pyStrip l))
    | RefOutcome.output d =>
      match check_series_with_file s d with
      | Except.error e => Except.error e
      | Except.ok (succ, lines) =>
        main_check_loop rest (ok && succ) (out ++ lines)
          (err ++ if succ then [] else [s.name ++ " Check Error :-("])

/-- The function `main_check`: run the loop over every series, then print `All Pass!`
and return exit status 0, or call `sys.exit(1)`.  An uncaught exception is
the `Except.error` case. -/
def main_check (items : List (Series × RefOutcome)) : Except Exn RunResult :=
  match main_check_loop items true [] [] with
  | Except.error e => Except.error e
  | Except.ok (ok, out, err) =>
    if ok then Except.ok ⟨0, out ++ ["All Pass!"], err⟩
    else Except.ok ⟨1, out, err⟩

/-- The (at most one) mismatch recorded for a skipper, for stating the
per-skipper report shape. -/
def skipperMismatch (s : Series) (po : String → PerlSkipperResult)
    (k : String) : Option Mismatch :=
  match runChecks check_functions s k (po k) with
  | Except.ok r => r
  | Except.error _ => none

/-- Whether the checks for a skipper complete without raising. -/
def isOkB : Except Exn (Option Mismatch) → Bool
  | Except.ok _ => true
  | Except.error _ => false

/-- The report `check_series_with_file` produces, described per skipper:
each skipper contributes at most one formatted mismatch line,
independently of every other skipper. -/
def fileReport (s : Series) (po : String → PerlSkipperResult) :
    Bool × List String :=
  let errs := s.all_skippers.filterMap
    (fun k => (skipperMismatch s po k).map (formatError k))
  (errs.isEmpty,
    if errs.isEmpty then []
    else ("Series " ++ s.name) :: errs.map (fun l => "  " ++ l))

/-! ### Concrete fixtures used by the witness theorems -/

/-- A series with no races whose one reference record disagrees on the
finished-race count for skipper `a` and agrees for skipper `b`. -/
def exS1 : Series :=
  { name := "mis", races := [],
    skipper_points_list := fun _ => none,
    get_skipper_rc_points := fun _ => none,
    all_skippers := ["a", "b"] }

/-- Reference record disagreeing with `exS1` on `finished_races`. -/
def dBad : PerlSkipperResult :=
  { finished_races := 2, low_n_list := [YVal.str "na"], race := [],
    rced_races := 0, rc_points := YVal.str "na" }

/-- Reference record agreeing with `exS1` everywhere. -/
def dGood : PerlSkipperResult :=
  { finished_races := 0, low_n_list := [YVal.str "na"], race := [],
    rced_races := 0, rc_points := YVal.str "na" }

/-- Reference dump for `exS1`: skipper `a` mismatches, `b` passes. -/
def exPo1 (k : String) : PerlSkipperResult := if k = "a" then dBad else dGood

/-- A series whose single skipper passes every check. -/
def exSOk : Series :=
  { name := "fine", races := [],
    skipper_points_list := fun _ => none,
    get_skipper_rc_points := fun _ => none,
    all_skippers := ["a"] }

/-- A series used as the owner of a failing reference subprocess. -/
def exSProc : Series :=
  { name := "crashy", races := [],
    skipper_points_list := fun _ => none,
    get_skipper_rc_points := fun _ => none,
    all_skippers := [] }

/-- C4 counterexample series: skipper `a` scored exactly 3 points in the
only race. -/
def c4S : Series :=
  { name := "c4", races := [⟨[("a", 3)], []⟩],
    skipper_points_list := fun _ => none,
    get_skipper_rc_points := fun _ => none,
    all_skippers := ["a"] }

/-- C4 counterexample reference record: the race value is 3.04, whose
one-decimal rounding is exactly the kernel value 3. -/
def c4P : PerlSkipperResult :=
  { finished_races := 1, low_n_list := [YVal.str "na"],
    race := [(1, YVal.num (76/25))], rced_races := 0,
    rc_points := YVal.str "na" }

/-- Series for the C4 witness: skipper `a` has a numeric points list. -/
def wS4 : Series :=
  { name := "w4", races := [⟨[("a", 1)], []⟩],
    skipper_points_list := fun k => if k = "a" then some [1] else none,
    get_skipper_rc_points := fun k => if k = "a" then some 1 else none,
    all_skippers := ["a"] }

/-- Reference record for the C4 witness. -/
def wP4 : PerlSkipperResult :=
  { finished_races := 1, low_n_list := [YVal.num 1],
    race := [(1, YVal.num 1)], rced_races := 0, rc_points := YVal.num 1 }

/-- Series for the C5 witness. -/
def wS5 : Series :=
  { name := "w5", races := [⟨[("a", 1)], []⟩],
    skipper_points_list := fun k => if k = "a" then some [1] else none,
    get_skipper_rc_points := fun _ => none,
    all_skippers := ["a"] }

/-- Reference record for the C5 witness: a string where numbers are
expected. -/
def wP5 : PerlSkipperResult :=
  { finished_races := 1, low_n_list := [YVal.str "1.0"],
    race := [(1, YVal.num 1)], rced_races := 0, rc_points := YVal.str "na" }

/-- Series for the C6 witness: skipper `a` is absent from race 1 and on RC
duty in race 2 (1-based). -/
def wS6 : Series :=
  { name := "w6", races := [⟨[], []⟩, ⟨[], ["a"]⟩],
    skipper_points_list := fun _ => none,
    get_skipper_rc_points := fun _ => none,
    all_skippers := ["a"] }

/-- Reference record for the C6 witness: the `race` mapping is empty, so
race 1 agrees (both absent) and race 2 mismatches. -/
def wP6 : PerlSkipperResult :=
  { finished_races := 0, low_n_list := [YVal.str "na"], race := [],
    rced_races := 1, rc_points := YVal.str "na" }

/-- Reference record for the C7 witness: a single-element DNQ sentinel. -/
def wP7 : PerlSkipperResult :=
  { finished_races := 0, low_n_list := [YVal.str "DNQ"], race := [],
    rced_races := 0, rc_points := YVal.str "na" }

/-- C8 failing-input series: the kernel reports an RC-points value for
skipper `a`. -/
def c8S : Series :=
  { name := "c8", races := [⟨[], ["a"]⟩],
    skipper_points_list := fun _ => none,
    get_skipper_rc_points := fun k => if k = "a" then some (23/10) else none,
    all_skippers := ["a"] }

/-- C8 failing-input reference record: `rc_points` is the non-numeric
string `na`. -/
def c8P : PerlSkipperResult :=
  { finished_races := 0, low_n_list := [YVal.str "na"],
    race := [(1, YVal.str "RC")], rced_races := 1,
    rc_points := YVal.str "na" }

/-- Race for the C9 witness: skipper `a` appears in the points mapping and
the RC set simultaneously. -/
def wR9 : Race := ⟨[("a", 2)], ["a"]⟩

/-- Input list for the C2 witness: one series with a skipper mismatch, one
series whose reference process failed. -/
def mcItems2 : List (Series × RefOutcome) :=
  [(exS1, RefOutcome.output exPo1), (exSProc, RefOutcome.procError [" boom "])]

/-- The observable run the C2 witness produces. -/
def mcR2 : RunResult :=
  ⟨1, ["Series mis", "  Skipper a Parameter `Count` Python=`0` != Perl=`2`"],
    ["mis Check Error :-(", "crashy Process Error!", "    boom"]⟩

/-- Series checked before the failing subprocess in the C3 witness. -/
def mcPre3 : List (Series × RefOutcome) :=
  [(exSOk, RefOutcome.output (fun _ => dGood))]

/-- Series checked after the failing subprocess in the C3 witness. -/
def mcPost3 : List (Series × RefOutcome) :=
  [(exS1, RefOutcome.output exPo1)]

/-- The observable run the C3 witness produces. -/
def mcR3 : RunResult :=
  ⟨1, ["Series mis", "  Skipper a Parameter `Count` Python=`0` != Perl=`2`"],
    ["crashy Process Error!", "    x", "mis Check Error :-("]⟩

/-! ### Helper lemmas -/

theorem rndHE_intCast (m : Int) : rndHE (m : ℚ) = m := by
  rw [rndHE, Int.floor_intCast]
  norm_num

theorem round1_idem (q : ℚ) : round1 (round1 q) = round1 q := by
  rw [round1, round1]
  have h : ((rndHE (q * 10) : ℚ)) / 10 * 10 = ((rndHE (q * 10) : ℚ)) := by
    field_simp
  rw [h, rndHE_intCast]

theorem round1_seventysix_twentyfifths : round1 (76/25) = 3 := by
  have h1 : (76/25 : ℚ) * 10 = 152/5 := by norm_num
  have h2 : ⌊(152 : ℚ)/5⌋ = 30 := by
    rw [Int.floor_eq_iff]
    norm_num
  rw [round1, h1, rndHE, h2]
  norm_num

theorem firstDiffAux_none_eq :
    ∀ (as bs : List ℚ) (i : Nat), as.length = bs.length →
      firstDiffAux i as bs = none → as = bs := by
  intro as
  induction as with
  | nil =>
    intro bs i hlen _
    exact (List.eq_nil_of_length_eq_zero hlen.symm).symm
  | cons a as ih =>
    intro bs i hlen hfd
    cases bs with
    | nil => simp at hlen
    | cons b bs =>
      rw [firstDiffAux] at hfd
      by_cases hab : a = b
      · subst hab
        simp only [ne_eq, not_true_eq_false, if_neg, ite_false] at hfd
        have := ih bs (i + 1) (by simpa using hlen) (by simpa using hfd)
        rw [this]
      · rw [if_pos hab] at hfd
        exact absurd hfd (by simp)

theorem pySorted_perm (l : List ℚ) : (pySorted l).Perm l :=
  List.perm_insertionSort _ l

theorem pySorted_sum_eq {as bs : List ℚ} (h : pySorted as = pySorted bs) :
    as.sum = bs.sum := by
  have h1 : as.sum = (pySorted as).sum := ((pySorted_perm as).sum_eq).symm
  have h2 : (pySorted bs).sum = bs.sum := (pySorted_perm bs).sum_eq
  rw [h1, h, h2]

theorem pySorted_length (l : List ℚ) : (pySorted l).length = l.length :=
  (pySorted_perm l).length_eq

theorem string_data_append (s t : String) : (s ++ t).data = s.data ++ t.data :=
  rfl

theorem point_label_ne_sum (i : Nat) :
    ("Point[" ++ toString i ++ "]") ≠ "Sum Count" := by
  intro h
  have hd := congrArg String.data h
  rw [string_data_append, string_data_append] at hd
  have h1 : ("Point[").data = ['P', 'o', 'i', 'n', 't', '['] := rfl
  have h2 : ("Sum Count").data = ['S', 'u', 'm', ' ', 'C', 'o', 'u', 'n', 't'] := rfl
  rw [h1, h2] at hd
  simp at hd

theorem check_race_results_go_cons (k : String) (p : PerlSkipperResult)
    (i : Nat) (r : Race) (rs : List Race) :
    check_race_results_go k p i (r :: rs) =
      if raceKernelVal k r = racePerlVal p (i + 1) then
        check_race_results_go k p (i + 1) rs
      else
        some ("Race[" ++ toString (i + 1) ++ "]", raceKernelVal k r,
          racePerlVal p (i + 1)) := by
  rw [check_race_results_go]
  by_cases heq : raceKernelVal k r = racePerlVal p (i + 1)
  · rw [if_pos heq]
    by_cases hn : raceKernelVal k r = Val.none_ ∧ racePerlVal p (i + 1) = Val.none_
    · rw [if_pos hn]
    · rw [if_neg hn, if_neg (by simpa using heq)]
  · rw [if_neg heq]
    have hn : ¬(raceKernelVal k r = Val.none_ ∧ racePerlVal p (i + 1) = Val.none_) := by
      intro hc
      exact heq (hc.1.trans hc.2.symm)
    rw [if_neg hn, if_pos heq]

theorem check_race_results_go_none_iff (k : String) (p : PerlSkipperResult) :
    ∀ (rs : List Race) (i : Nat),
      check_race_results_go k p i rs = none ↔
        ∀ j, j < rs.length →
          raceKernelVal k (rs.getD j dRace) = racePerlVal p (i + j + 1) := by
  intro rs
  induction rs with
  | nil =>
    intro i
    simp [check_race_results_go]
  | cons r rs ih =>
    intro i
    rw [check_race_results_go_cons]
    by_cases heq : raceKernelVal k r = racePerlVal p (i + 1)
    · rw [if_pos heq, ih (i + 1)]
      constructor
      · intro hall j hj
        cases j with
        | zero => simpa using heq
        | succ j =>
          have hj' : j < rs.length := by simpa using hj
          have := hall j hj'
          have harith : i + 1 + j + 1 = i + (j + 1) + 1 := by omega
          rw [harith] at this
          simpa using this
      · intro hall j hj
        have := hall (j + 1) (by simpa using hj)
        have harith : i + (j + 1) + 1 = i + 1 + j + 1 := by omega
        rw [harith] at this
        simpa using this
    · rw [if_neg heq]
      simp only [reduceCtorEq, false_iff, not_forall]
      refine ⟨0, by simp, ?_⟩
      simpa using heq

theorem check_race_results_go_first (k : String) (p : PerlSkipperResult) :
    ∀ (rs : List Race) (i idx : Nat), idx < rs.length →
      (∀ j, j < idx →
        raceKernelVal k (rs.getD j dRace) = racePerlVal p (i + j + 1)) →
      raceKernelVal k (rs.getD idx dRace) ≠ racePerlVal p (i + idx + 1) →
      check_race_results_go k p i rs =
        some ("Race[" ++ toString (i + idx + 1) ++ "]",
          raceKernelVal k (rs.getD idx dRace), racePerlVal p (i + idx + 1)) := by
  intro rs
  induction rs with
  | nil =>
    intro i idx hidx
    simp at hidx
  | cons r rs ih =>
    intro i idx hidx hpre hne
    rw [check_race_results_go_cons]
    cases idx with
    | zero =>
      simp only [List.getD_cons_zero] at hne ⊢
      have harith : i + 0 + 1 = i + 1 := by omega
      rw [harith] at hne ⊢
      rw [if_neg hne]
    | succ idx =>
      have h0 : raceKernelVal k r = racePerlVal p (i + 1) := by
        have := hpre 0 (by omega)
        simpa using this
      rw [if_pos h0]
      have hrec := ih (i + 1) idx (by simpa using hidx)
        (fun j hj => by
          have := hpre (j + 1) (by omega)
          have harith : i + (j + 1) + 1 = i + 1 + j + 1 := by omega
          rw [harith] at this
          simpa using this)
        (by
          have harith : i + (idx + 1) + 1 = i + 1 + idx + 1 := by omega
          rw [← harith]
          simpa using hne)
      have harith : i + 1 + idx + 1 = i + (idx + 1) + 1 := by omega
      rw [harith] at hrec
      simpa using hrec

theorem collectErrors_ok (s : Series) (po : String → PerlSkipperResult) :
    ∀ ks : List String,
      (∀ k, k ∈ ks → isOkB (runChecks check_functions s k (po k)) = true) →
      collectErrors ks s po =
        Except.ok (ks.filterMap
          (fun k => (skipperMismatch s po k).map (formatError k))) := by
  intro ks
  induction ks with
  | nil => intro _; rfl
  | cons k ks ih =>
    intro h
    have hk := h k (by simp)
    rw [collectErrors]
    cases hr : runChecks check_functions s k (po k) with
    | error e => rw [hr] at hk; simp [isOkB] at hk
    | ok r =>
      have hmis : skipperMismatch s po k = r := by
        rw [skipperMismatch, hr]
      have hrest := ih (fun k' hk' => h k' (by simp [hk']))
      cases r with
      | none => simp [hrest, List.filterMap_cons, hmis]
      | some m => simp [hrest, List.filterMap_cons, hmis, Except.map]

theorem main_check_loop_ok :
    ∀ (items : List (Series × RefOutcome)) (ok : Bool) (out err : List String)
      (res : Bool × List String × List String),
      main_check_loop items ok out err = Except.ok res →
      res = (ok && items.all seriesPasses,
        out ++ items.flatMap seriesStdoutLines,
        err ++ items.flatMap seriesStderrLines) := by
  intro items
  induction items with
  | nil =>
    intro ok out err res h
    rw [main_check_loop] at h
    cases h
    simp
  | cons item rest ih =>
    intro ok out err res h
    obtain ⟨s, o⟩ := item
    cases o with
    | procError es =>
      rw [main_check_loop] at h
      have := ih _ _ _ _ h
      rw [this]
      simp [seriesPasses, seriesStdoutLines, seriesStderrLines]
    | output d =>
      rw [main_check_loop] at h
      cases hc : check_series_with_file s d with
      | error e => rw [hc] at h; cases h
      | ok r =>
        obtain ⟨succ, lines⟩ := r
        rw [hc] at h
        have := ih _ _ _ _ h
        rw [this]
        have hp : seriesPasses (s, RefOutcome.output d) = succ := by
          simp [seriesPasses, hc]
        have hso : seriesStdoutLines (s, RefOutcome.output d) = lines := by
          simp [seriesStdoutLines, hc]
        have hse : seriesStderrLines (s, RefOutcome.output d) =
            (if succ then [] else [s.name ++ " Check Error :-("]) := by
          cases succ <;> simp [seriesStderrLines, hc]
        rw [List.all_cons, hp, List.flatMap_cons, List.flatMap_cons, hso, hse]
        simp [Bool.and_assoc]

/-! ### Claims -/

theorem check_series_points_of_some (s : Series) (k : String)
    (p : PerlSkipperResult) (pts : List ℚ)
    (h : s.skipper_points_list k = some pts) :
    check_series_points s k p = check_series_points_scored pts p.low_n_list := by
  rw [check_series_points, h]

theorem check_series_points_of_none (s : Series) (k : String)
    (p : PerlSkipperResult) (h : s.skipper_points_list k = none) :
    check_series_points s k p = check_series_points_sentinel p.low_n_list := by
  rw [check_series_points, h]

theorem check_series_points_sentinel_single (v : YVal) :
    check_series_points_sentinel [v] =
      if v = YVal.str "na" ∨ v = YVal.str "DNQ" then none
      else some ("Point String", Val.str "na/DNQ", v.toVal) := by
  simp [check_series_points_sentinel]

/-- Claim C5: when the kernel points list is numeric and any element of the
reference `low_n_list` is a string, `check_series_points` reports the
distinct `Number/String` mismatch class carrying the kernel list and the
raw reference list, with no coercion of the string to a number. -/
theorem claim_C5 (s : Series) (k : String) (p : PerlSkipperResult)
    (pts : List ℚ) (h1 : s.skipper_points_list k = some pts)
    (h2 : p.low_n_list.any YVal.isStr = true) :
    check_series_points s k p =
      some ("Number/String", Val.numList pts, Val.rawList p.low_n_list) := by
  rw [check_series_points_of_some s k p pts h1, check_series_points_scored,
    if_pos h2]

/-- Witness for C5. -/
theorem claim_C5_witness :
    check_series_points wS5 "a" wP5 =
      some ("Number/String", Val.numList [1], Val.rawList wP5.low_n_list) :=
  claim_C5 wS5 "a" wP5 [1] rfl rfl

/-- Claim C7: for a skipper whose kernel `skipper_points_list` is the falsy
DNQ/na sentinel, the series-points check passes exactly when the reference
`low_n_list` is a one-element list containing the string `na` or `DNQ`;
any other length yields an `Array Length` mismatch, and a single element
other than those strings yields a `Point String` mismatch. -/
theorem claim_C7 (s : Series) (k : String) (p : PerlSkipperResult)
    (h : s.skipper_points_list k = none) :
    (check_series_points s k p = none ↔
      p.low_n_list = [YVal.str "na"] ∨ p.low_n_list = [YVal.str "DNQ"]) ∧
    (p.low_n_list.length ≠ 1 →
      check_series_points s k p =
        some ("Array Length", Val.int 1, Val.rawList p.low_n_list)) ∧
    (∀ v, p.low_n_list = [v] → ¬(v = YVal.str "na" ∨ v = YVal.str "DNQ") →
      check_series_points s k p =
        some ("Point String", Val.str "na/DNQ", v.toVal)) := by
  have hred := check_series_points_of_none s k p h
  refine ⟨?_, ?_, ?_⟩
  · rw [hred]
    cases hl : p.low_n_list with
    | nil => simp [check_series_points_sentinel]
    | cons v t =>
      cases t with
      | nil =>
        rw [check_series_points_sentinel_single]
        by_cases hv : v = YVal.str "na" ∨ v = YVal.str "DNQ"
        · rw [if_pos hv]
          constructor
          · intro _
            rcases hv with hv | hv <;> subst hv
            · exact Or.inl rfl
            · exact Or.inr rfl
          · intro _; rfl
        · rw [if_neg hv]
          constructor
          · intro hc; exact absurd hc (by simp)
          · intro hc
            exfalso
            apply hv
            rcases hc with hc | hc
            · exact Or.inl (by simpa using hc)
            · exact Or.inr (by simpa using hc)
      | cons w t' => simp [check_series_points_sentinel]
  · intro hlen
    rw [hred, check_series_points_sentinel, if_pos hlen]
  · intro v hl hv
    rw [hred, hl, check_series_points_sentinel_single, if_neg hv]

/-- Witness for C7. -/
theorem claim_C7_witness : check_series_points exS1 "a" wP7 = none :=
  (claim_C7 exS1 "a" wP7 rfl).1.mpr (Or.inr rfl)

/-- Claim C9: when a skipper appears both in a race's points mapping and in
its RC set, the harness formats the kernel-side result as the numeric
points value, never the `RC` marker, and the per-race check compares that
numeric value against the reference. -/
theorem claim_C9 (k : String) (r : Race) (q : ℚ)
    (h1 : r.points.lookup k = some q) (h2 : k ∈ r.rc) :
    raceKernelVal k r = Val.num q ∧
    raceKernelVal k r ≠ Val.str "RC" ∧
    (∀ (s : Series) (p : PerlSkipperResult), s.races = [r] →
      check_race_results s k p =
        (if Val.num q = racePerlVal p 1 then none
         else some ("Race[1]", Val.num q, racePerlVal p 1))) := by
  have hk : raceKernelVal k r = Val.num q := by rw [raceKernelVal, h1]
  refine ⟨hk, by rw [hk]; simp, ?_⟩
  intro s p hs
  rw [check_race_results, hs, check_race_results_go_cons, hk]
  have hlbl : ("Race[" ++ toString (0 + 1) ++ "]") = "Race[1]" := rfl
  rw [hlbl]
  by_cases hc : Val.num q = racePerlVal p (0 + 1)
  · rw [if_pos hc, if_pos (by simpa using hc), check_race_results_go]
  · rw [if_neg hc, if_neg (by simpa using hc)]

/-- Witness for C9. -/
theorem claim_C9_witness :
    raceKernelVal "a" wR9 = Val.num 2 ∧
    raceKernelVal "a" wR9 ≠ Val.str "RC" :=
  ⟨(claim_C9 "a" wR9 2 rfl (by decide)).1,
   (claim_C9 "a" wR9 2 rfl (by decide)).2.1⟩

/-- Claim C10: `check_series_points` can never return a `Sum Count`
mismatch: once the lengths agree and the value-sorted lists are
element-wise equal, the two sums are necessarily equal, so the final
branch is unreachable. -/
theorem claim_C10 (s : Series) (k : String) (p : PerlSkipperResult)
    (a b : Val) : check_series_points s k p ≠ some ("Sum Count", a, b) := by
  cases hs : s.skipper_points_list k with
  | none =>
    rw [check_series_points_of_none s k p hs]
    cases hl : p.low_n_list with
    | nil =>
      have he : check_series_points_sentinel [] =
          some ("Array Length", Val.int 1, Val.rawList []) := rfl
      rw [he]
      intro hc
      simp only [Option.some.injEq, Prod.mk.injEq] at hc
      exact absurd hc.1 (by decide)
    | cons v t =>
      cases t with
      | nil =>
        rw [check_series_points_sentinel_single]
        by_cases hv : v = YVal.str "na" ∨ v = YVal.str "DNQ"
        · rw [if_pos hv]; simp
        · rw [if_neg hv]
          intro hc
          simp only [Option.some.injEq, Prod.mk.injEq] at hc
          exact absurd hc.1 (by decide)
      | cons w t' =>
        rw [check_series_points_sentinel,
          if_pos (by simp : ((v :: w :: t' : List YVal)).length ≠ 1)]
        intro hc
        simp only [Option.some.injEq, Prod.mk.injEq] at hc
        exact absurd hc.1 (by decide)
  | some pts =>
    rw [check_series_points_of_some s k p pts hs]
    simp only [check_series_points_scored]
    by_cases hstr : p.low_n_list.any YVal.isStr = true
    · rw [if_pos hstr]
      intro hc
      simp only [Option.some.injEq, Prod.mk.injEq] at hc
      exact absurd hc.1 (by decide)
    · rw [if_neg hstr]
      by_cases hlen :
          pts.length ≠ (p.low_n_list.map (fun v => round1 v.toNumD)).length
      · rw [if_pos hlen]
        intro hc
        simp only [Option.some.injEq, Prod.mk.injEq] at hc
        exact absurd hc.1 (by decide)
      · rw [if_neg hlen]
        simp only [ne_eq, not_not] at hlen
        cases hfd : firstDiffAux 0 (pySorted pts)
            (pySorted (p.low_n_list.map (fun v => round1 v.toNumD))) with
        | some t =>
          obtain ⟨i, x, y⟩ := t
          intro hc
          simp only [Option.some.injEq, Prod.mk.injEq] at hc
          exact absurd hc.1 (point_label_ne_sum i)
        | none =>
          have hsorteq : pySorted pts =
              pySorted (p.low_n_list.map (fun v => round1 v.toNumD)) :=
            firstDiffAux_none_eq _ _ 0
              (by rw [pySorted_length, pySorted_length, hlen]) hfd
          have hsum : pts.sum =
              (p.low_n_list.map (fun v => round1 v.toNumD)).sum :=
            pySorted_sum_eq hsorteq
          simp [hsum]

/-- Witness for C10 (instantiation at a concrete input). -/
theorem claim_C10_witness :
    check_series_points exS1 "a" dGood ≠
      some ("Sum Count", Val.int 1, Val.int 1) :=
  claim_C10 exS1 "a" dGood (Val.int 1) (Val.int 1)

/-- Claim C6: the per-race check addresses the reference `race` mapping at
key `i + 1` for the race at internal 0-based position `i`; the pair passes
when the two sides agree (in particular when both are absent), the first
disagreeing position is reported under the 1-based label, and absence on
either side is the `None` value. -/
theorem claim_C6 (s : Series) (k : String) (p : PerlSkipperResult) :
    (check_race_results s k p = none ↔
      ∀ i, i < s.races.length →
        raceKernelVal k (s.races.getD i dRace) = racePerlVal p (i + 1)) ∧
    (∀ i, i < s.races.length →
      (∀ j, j < i →
        raceKernelVal k (s.races.getD j dRace) = racePerlVal p (j + 1)) →
      raceKernelVal k (s.races.getD i dRace) ≠ racePerlVal p (i + 1) →
      check_race_results s k p =
        some ("Race[" ++ toString (i + 1) ++ "]",
          raceKernelVal k (s.races.getD i dRace), racePerlVal p (i + 1))) ∧
    (∀ r : Race, r.points.lookup k = none → k ∉ r.rc →
      raceKernelVal k r = Val.none_) ∧
    (∀ n : Nat, p.race.lookup n = none → racePerlVal p n = Val.none_) := by
  refine ⟨?_, ?_, ?_, ?_⟩
  · rw [check_race_results, check_race_results_go_none_iff]
    constructor
    · intro hall i hi
      have := hall i hi
      simpa using this
    · intro hall i hi
      have := hall i hi
      simpa using this
  · intro i hi hpre hne
    have := check_race_results_go_first k p s.races 0 i hi
      (fun j hj => by simpa using hpre j hj) (by simpa using hne)
    simpa [check_race_results] using this
  · intro r hl hc
    simp only [raceKernelVal, hl]
    rw [if_neg hc]
  · intro n hl
    rw [racePerlVal, hl]

/-- Witness for C6. -/
theorem claim_C6_witness :
    check_race_results wS6 "a" wP6 =
      some ("Race[2]", Val.str "RC", Val.none_) := by
  have h := (claim_C6 wS6 "a" wP6).2.1 1 (by decide)
    (fun j hj => by
      have hj0 : j = 0 := by omega
      subst hj0
      rfl)
    (by decide)
  exact h.trans rfl

/-- Claim C8 (code bug): with a kernel RC-points value present and the
reference `rc_points` equal to the non-numeric string `na`,
`check_rc_points` raises `decimal.InvalidOperation` from
`round(Decimal("na"), 1)` instead of reporting a structured `RC Points`
mismatch. -/
theorem claim_C8_bug :
    check_rc_points c8S "a" c8P = Except.error Exn.invalidOperation := rfl

/-- Claim C4, amended: the reference `low_n_list` elements (when the kernel
list is numeric and no reference element is a string) and the reference
`rc_points` value (when the kernel reports an RC value and the reference
parses as a decimal) are compared only through their one-decimal
roundings: replacing them by those roundings does not change the check's
result. -/
theorem claim_C4 :
    (∀ (s : Series) (k : String) (p : PerlSkipperResult) (pts : List ℚ),
      s.skipper_points_list k = some pts →
      p.low_n_list.any YVal.isStr = false →
      check_series_points s k p =
        check_series_points s k
          {p with low_n_list :=
            p.low_n_list.map (fun v => YVal.num (round1 v.toNumD))}) ∧
    (∀ (s : Series) (k : String) (p : PerlSkipperResult) (v q : ℚ),
      s.get_skipper_rc_points k = some v →
      decimalOf p.rc_points = some q →
      check_rc_points s k p =
        check_rc_points s k {p with rc_points := YVal.num (round1 q)}) := by
  constructor
  · intro s k p pts h1 h2
    have hstrR : (p.low_n_list.map
        (fun v => YVal.num (round1 v.toNumD))).any YVal.isStr = false := by
      rw [List.any_map]
      simp [Function.comp, YVal.isStr]
    have hmm : (p.low_n_list.map
          (fun v => YVal.num (round1 v.toNumD))).map
            (fun v => round1 v.toNumD) =
        p.low_n_list.map (fun v => round1 v.toNumD) := by
      rw [List.map_map]
      exact List.map_congr_left
        (fun a _ => by simp [Function.comp, YVal.toNumD, round1_idem])
    rw [check_series_points_of_some s k p pts h1,
      check_series_points_of_some s k _ pts h1]
    show check_series_points_scored pts p.low_n_list =
      check_series_points_scored pts
        (p.low_n_list.map (fun v => YVal.num (round1 v.toNumD)))
    simp only [check_series_points_scored, h2, hstrR, hmm,
      Bool.false_eq_true, if_false]
  · intro s k p v q h1 h2
    have h2R : decimalOf (YVal.num (round1 q)) = some (round1 q) := rfl
    simp only [check_rc_points, h1, h2, h2R, round1_idem]

/-- Witness for the amended C4. -/
theorem claim_C4_witness :
    check_series_points wS4 "a" wP4 =
      check_series_points wS4 "a"
        {wP4 with low_n_list :=
          wP4.low_n_list.map (fun v => YVal.num (round1 v.toNumD))} ∧
    check_rc_points wS4 "a" wP4 =
      check_rc_points wS4 "a" {wP4 with rc_points := YVal.num (round1 1)} :=
  ⟨claim_C4.1 wS4 "a" wP4 [1] rfl rfl, claim_C4.2 wS4 "a" wP4 1 1 rfl rfl⟩

/-- Counterexample to C4 as stated: the per-race comparison uses (and
reports) the unrounded reference value 3.04, even though its one-decimal
rounding equals the kernel value 3 — so not every compared numeric
reference field is rounded first. -/
theorem claim_C4_counterexample :
    round1 (76/25) = 3 ∧
    check_race_results c4S "a" c4P =
      some ("Race[1]", Val.num 3, Val.num (76/25)) := by
  refine ⟨round1_seventysix_twentyfifths, ?_⟩
  rw [check_race_results]
  have hr : c4S.races = [⟨[("a", 3)], []⟩] := rfl
  rw [hr, check_race_results_go_cons]
  have hk : raceKernelVal "a" ⟨[("a", 3)], []⟩ = Val.num 3 := rfl
  have hp : racePerlVal c4P (0 + 1) = Val.num (76/25) := rfl
  rw [hk, hp, if_neg ?_]
  · have hlbl : ("Race[" ++ toString (0 + 1) ++ "]") = "Race[1]" := rfl
    rw [hlbl]
  · intro hc
    have : (3 : ℚ) = 76/25 := by injection hc
    norm_num at this

/-- Claim C1: for every skipper, the five checks run in the fixed order
finished-race count → series points → per-race results → RC race count →
RC points, stopping at the first mismatch (the recorded mismatch is the
first check's, later checks contribute nothing), and the report lists at
most one formatted mismatch per skipper, each skipper being processed
independently of the others. -/
theorem claim_C1 (s : Series) (po : String → PerlSkipperResult) :
    (∀ (k : String) (p : PerlSkipperResult) (m : Mismatch),
      runChecks check_functions s k p = Except.ok (some m) ↔
        (check_finished_race_count s k p = some m ∨
         (check_finished_race_count s k p = none ∧
          check_series_points s k p = some m) ∨
         (check_finished_race_count s k p = none ∧
          check_series_points s k p = none ∧
          check_race_results s k p = some m) ∨
         (check_finished_race_count s k p = none ∧
          check_series_points s k p = none ∧
          check_race_results s k p = none ∧
          check_rc_race_count s k p = some m) ∨
         (check_finished_race_count s k p = none ∧
          check_series_points s k p = none ∧
          check_race_results s k p = none ∧
          check_rc_race_count s k p = none ∧
          check_rc_points s k p = Except.ok (some m)))) ∧
    ((∀ k, k ∈ s.all_skippers →
        isOkB (runChecks check_functions s k (po k)) = true) →
      check_series_with_file s po = Except.ok (fileReport s po)) := by
  constructor
  · intro k p m
    cases h1 : check_finished_race_count s k p with
    | some r1 => simp [runChecks, check_functions, h1]
    | none =>
      cases h2 : check_series_points s k p with
      | some r2 => simp [runChecks, check_functions, h1, h2]
      | none =>
        cases h3 : check_race_results s k p with
        | some r3 => simp [runChecks, check_functions, h1, h2, h3]
        | none =>
          cases h4 : check_rc_race_count s k p with
          | some r4 => simp [runChecks, check_functions, h1, h2, h3, h4]
          | none =>
            cases h5 : check_rc_points s k p with
            | error e => simp [runChecks, check_functions, h1, h2, h3, h4, h5]
            | ok r5 =>
              cases r5 <;> simp [runChecks, check_functions, h1, h2, h3, h4, h5]
  · intro hok
    rw [check_series_with_file, collectErrors_ok s po s.all_skippers hok]
    cases hL : s.all_skippers.filterMap
        (fun k => (skipperMismatch s po k).map (formatError k)) with
    | nil => simp [fileReport, hL]
    | cons e es => simp [fileReport, hL]

/-- Witness for C1. -/
theorem claim_C1_witness :
    check_series_with_file exS1 exPo1 =
      Except.ok (false,
        ["Series mis",
         "  Skipper a Parameter `Count` Python=`0` != Perl=`2`"]) :=
  ((claim_C1 exS1 exPo1).2 (by decide)).trans rfl

/-- Claim C2: a completed `main_check` run exits 0 exactly when every
series passes, otherwise it exits 1, and in either case its stdout carries
every series' mismatch lines (all printed before the final exit). -/
theorem claim_C2 (items : List (Series × RefOutcome)) (r : RunResult)
    (h : main_check items = Except.ok r) :
    (r.exitCode = 0 ↔ items.all seriesPasses = true) ∧
    (r.exitCode = 0 ∨ r.exitCode = 1) ∧
    r.stdout = items.flatMap seriesStdoutLines ++
      (if items.all seriesPasses then ["All Pass!"] else []) := by
  rw [main_check] at h
  cases hl : main_check_loop items true [] [] with
  | error e => rw [hl] at h; cases h
  | ok res =>
    obtain ⟨ok, out, err⟩ := res
    have hd := main_check_loop_ok items true [] [] (ok, out, err) hl
    simp only [Prod.mk.injEq] at hd
    obtain ⟨hok, hout, herr⟩ := hd
    rw [Bool.true_and] at hok
    rw [List.nil_append] at hout herr
    rw [hl] at h
    subst hok
    cases hpass : items.all seriesPasses with
    | true =>
      rw [hpass] at h
      replace h : Except.ok (⟨0, out ++ ["All Pass!"], err⟩ : RunResult) =
        Except.ok r := h
      injection h with h'
      subst h'
      refine ⟨by simp [hpass], Or.inl rfl, ?_⟩
      simp [hpass, hout]
    | false =>
      rw [hpass] at h
      replace h : Except.ok (⟨1, out, err⟩ : RunResult) = Except.ok r := h
      injection h with h'
      subst h'
      refine ⟨by simp [hpass], Or.inr rfl, ?_⟩
      simp [hpass, hout]

/-- Witness for C2. -/
theorem claim_C2_witness :
    (mcR2.exitCode = 0 ↔ mcItems2.all seriesPasses = true) ∧
    (mcR2.exitCode = 0 ∨ mcR2.exitCode = 1) ∧
    mcR2.stdout = mcItems2.flatMap seriesStdoutLines ++
      (if mcItems2.all seriesPasses then ["All Pass!"] else []) :=
  claim_C2 mcItems2 mcR2 rfl

/-- Claim C3: a reference subprocess that exits non-zero has its stderr
surfaced (prefixed by the series name, lines stripped and indented), makes
the whole run fail, and leaves every other series' checking untouched:
the series before and after it contribute exactly the output they would
contribute anyway. -/
theorem claim_C3 (pre post : List (Series × RefOutcome)) (s : Series)
    (es : List String) (r : RunResult)
    (h : main_check (pre ++ (s, RefOutcome.procError es) :: post) =
      Except.ok r) :
    r.exitCode = 1 ∧
    r.stderr = pre.flatMap seriesStderrLines ++
      ((s.name ++ " Process Error!") ::
        es.map (fun l => "    " ++ pyStrip l)) ++
      post.flatMap seriesStderrLines ∧
    r.stdout = pre.flatMap seriesStdoutLines ++
      post.flatMap seriesStdoutLines := by
  rw [main_check] at h
  cases hl : main_check_loop (pre ++ (s, RefOutcome.procError es) :: post)
      true [] [] with
  | error e => rw [hl] at h; cases h
  | ok res =>
    obtain ⟨ok, out, err⟩ := res
    have hd := main_check_loop_ok _ _ _ _ _ hl
    simp only [Prod.mk.injEq] at hd
    obtain ⟨hok, hout, herr⟩ := hd
    have hfail : (pre ++ (s, RefOutcome.procError es) :: post).all
        seriesPasses = false := by
      rw [List.all_append, List.all_cons]
      simp [seriesPasses]
    rw [hfail, Bool.and_false] at hok
    rw [List.nil_append] at hout herr
    rw [hl] at h
    subst hok
    replace h : Except.ok (⟨1, out, err⟩ : RunResult) = Except.ok r := h
    injection h with h'
    subst h'
    refine ⟨rfl, ?_, ?_⟩
    · rw [herr, List.flatMap_append, List.flatMap_cons]
      have hstep : seriesStderrLines (s, RefOutcome.procError es) =
          (s.name ++ " Process Error!") ::
            es.map (fun l => "    " ++ pyStrip l) := rfl
      rw [hstep, List.append_assoc]
    · rw [hout, List.flatMap_append, List.flatMap_cons]
      have hstep : seriesStdoutLines (s, RefOutcome.procError es) = [] := rfl
      rw [hstep, List.nil_append]

/-- Witness for C3. -/
theorem claim_C3_witness :
    mcR3.exitCode = 1 ∧
    mcR3.stderr = mcPre3.flatMap seriesStderrLines ++
      ((exSProc.name ++ " Process Error!") ::
        ["x "].map (fun l => "    " ++ pyStrip l)) ++
      mcPost3.flatMap seriesStderrLines ∧
    mcR3.stdout = mcPre3.flatMap seriesStdoutLines ++
      mcPost3.flatMap seriesStdoutLines :=
  claim_C3 mcPre3 mcPost3 exSProc ["x "] mcR3 rfl

end PortsmouthRace
